import Mathlib

/-!
Verification of the `ecmade` JavaScript-literal deserialization engine.

The Rust source has three files:

* `src/number.rs` — coercion of one parsed numeric literal into each of the
  ten fixed-width integer types, gated by a textual "integer" classification;
* `src/error.rs` — the error taxonomy and the adaptation of a literal to a
  generic serde "unexpected value" diagnostic (`Error::unexpected_lit`);
* `src/lib.rs` — the serde `Deserializer` over a `swc_ecma_ast::Expr` held
  either borrowed (`Cow::Borrowed`) or owned (`Cow::Owned`), together with
  the lazy sequence (`Seq`), map (`Map`) and enum (`Enum`) accessors.

Embedding conventions:

* `swc_ecma_ast::Number` stores an `f64` value and the raw source text.  The
  numeric value is embedded as a rational (`Rat`): comparison of finite
  `f64` values coincides with comparison of the rationals they denote, so
  every comparison in the source is translated literally, and each constant
  `<ty>::MIN as f64` / `<ty>::MAX as f64` is evaluated to the exact rational
  that Rust cast produces (for the 64- and 128-bit types `MAX as f64` rounds
  up to the next power of two; every other bound is exact).  Rust's
  saturating, truncating float-to-int cast `value as <ty>` is
  `rat_as_int_sat`.  NaN and infinities lie outside the model.
* Ownership is a tag (`Mode`): in Lean both modes see the same tree, and the
  two `Cow` match arms of every source function are transcribed separately.
* Generic visitor-driven deserialization is observed at the universal value
  target (`JsValue`, the shape of `serde_json::Value`), which exercises the
  `deserialize_any` dispatch and the sequence/map accessor loops exactly as
  a caller of `from_expr::<serde_json::Value>` does.
-/

namespace Ecmade

/-- Ownership mode of the expression node held by a `Deserializer`:
`Cow::Borrowed` (view into a caller-owned tree) vs `Cow::Owned` (moved). -/
inductive Mode where
  | borrowed
  | owned
deriving DecidableEq

/-- `swc_ecma_ast::Number`: the computed floating value (`value : f64`,
embedded as a rational) plus the optional original source text (`raw`). -/
structure Number where
  value : Rat
  raw : Option String
deriving DecidableEq

/-- The fragment of `serde::de::Unexpected` the engine constructs. -/
inductive Unexpected where
  | bool (b : Bool)
  | unsigned (n : Int)
  | signed (n : Int)
  | float (q : Rat)
  | str (s : String)
  | option
  | map
  | seq
deriving DecidableEq

namespace number

/-- `number::is_integer` (src/number.rs:4-11): the literal's raw source text
is present and contains no `'.'` character.
(`number.raw.as_ref().map(|r| r.as_str()).filter(|s| !s.contains('.')).is_some()`;
the character test is expressed on the string's character list `data`.) -/
def is_integer (n : Number) : Bool :=
  match n.raw with
  | some raw => !raw.data.contains '.'
  | none => false

/-- Rust's `value as <int type>` cast on a finite float: truncate toward
zero, then saturate into `[mn, mx]`. -/
def rat_as_int_sat (q : Rat) (mn mx : Int) : Int :=
  let t : Int := if 0 ≤ q then q.floor else q.ceil
  max mn (min mx t)

/-- `i8::MIN as f64` (exact). -/
def i8_min_as_f64 : Rat := -128
/-- `i8::MAX as f64` (exact). -/
def i8_max_as_f64 : Rat := 127
/-- `i16::MIN as f64` (exact). -/
def i16_min_as_f64 : Rat := -32768
/-- `i16::MAX as f64` (exact). -/
def i16_max_as_f64 : Rat := 32767
/-- `i32::MIN as f64` (exact). -/
def i32_min_as_f64 : Rat := -2147483648
/-- `i32::MAX as f64` (exact). -/
def i32_max_as_f64 : Rat := 2147483647
/-- `i64::MIN as f64` = `-2^63` (exact). -/
def i64_min_as_f64 : Rat := -9223372036854775808
/-- `i64::MAX as f64`: `2^63 - 1` is not an `f64`; the cast rounds to
`2^63`, one past `i64::MAX`. -/
def i64_max_as_f64 : Rat := 9223372036854775808
/-- `i128::MIN as f64` = `-2^127` (exact). -/
def i128_min_as_f64 : Rat := -170141183460469231731687303715884105728
/-- `i128::MAX as f64`: rounds to `2^127`, one past `i128::MAX`. -/
def i128_max_as_f64 : Rat := 170141183460469231731687303715884105728
/-- `u8::MIN as f64` (exact). -/
def u8_min_as_f64 : Rat := 0
/-- `u8::MAX as f64` (exact). -/
def u8_max_as_f64 : Rat := 255
/-- `u16::MIN as f64` (exact). -/
def u16_min_as_f64 : Rat := 0
/-- `u16::MAX as f64` (exact). -/
def u16_max_as_f64 : Rat := 65535
/-- `u32::MIN as f64` (exact). -/
def u32_min_as_f64 : Rat := 0
/-- `u32::MAX as f64` (exact). -/
def u32_max_as_f64 : Rat := 4294967295
/-- `u64::MIN as f64` (exact). -/
def u64_min_as_f64 : Rat := 0
/-- `u64::MAX as f64`: rounds to `2^64`, one past `u64::MAX`. -/
def u64_max_as_f64 : Rat := 18446744073709551616
/-- `u128::MIN as f64` (exact). -/
def u128_min_as_f64 : Rat := 0
/-- `u128::MAX as f64`: rounds to `2^128`, one past `u128::MAX`. -/
def u128_max_as_f64 : Rat := 340282366920938463463374607431768211456

/-- `number::number_to_i8` (src/number.rs:79-89). -/
def number_to_i8 (n : Number) : Option Int :=
  if is_integer n then
    if n.value ≤ i8_max_as_f64 ∧ n.value ≥ i8_min_as_f64 then
      some (rat_as_int_sat n.value (-128) 127)
    else none
  else none

/-- `number::number_to_i16` (src/number.rs:43-53). -/
def number_to_i16 (n : Number) : Option Int :=
  if is_integer n then
    if n.value ≤ i16_max_as_f64 ∧ n.value ≥ i16_min_as_f64 then
      some (rat_as_int_sat n.value (-32768) 32767)
    else none
  else none

/-- `number::number_to_i32` (src/number.rs:55-65). -/
def number_to_i32 (n : Number) : Option Int :=
  if is_integer n then
    if n.value ≤ i32_max_as_f64 ∧ n.value ≥ i32_min_as_f64 then
      some (rat_as_int_sat n.value (-2147483648) 2147483647)
    else none
  else none

/-- `number::number_to_i64` (src/number.rs:67-77). -/
def number_to_i64 (n : Number) : Option Int :=
  if is_integer n then
    if n.value ≤ i64_max_as_f64 ∧ n.value ≥ i64_min_as_f64 then
      some (rat_as_int_sat n.value (-9223372036854775808) 9223372036854775807)
    else none
  else none

/-- `number::number_to_i128` (src/number.rs:31-41). -/
def number_to_i128 (n : Number) : Option Int :=
  if is_integer n then
    if n.value ≤ i128_max_as_f64 ∧ n.value ≥ i128_min_as_f64 then
      some (rat_as_int_sat n.value (-170141183460469231731687303715884105728)
        170141183460469231731687303715884105727)
    else none
  else none

/-- `number::number_to_u8` (src/number.rs:139-149). -/
def number_to_u8 (n : Number) : Option Int :=
  if is_integer n then
    if n.value ≤ u8_max_as_f64 ∧ n.value ≥ u8_min_as_f64 then
      some (rat_as_int_sat n.value 0 255)
    else none
  else none

/-- `number::number_to_u16` (src/number.rs:103-113). -/
def number_to_u16 (n : Number) : Option Int :=
  if is_integer n then
    if n.value ≤ u16_max_as_f64 ∧ n.value ≥ u16_min_as_f64 then
      some (rat_as_int_sat n.value 0 65535)
    else none
  else none

/-- `number::number_to_u32` (src/number.rs:115-125). -/
def number_to_u32 (n : Number) : Option Int :=
  if is_integer n then
    if n.value ≤ u32_max_as_f64 ∧ n.value ≥ u32_min_as_f64 then
      some (rat_as_int_sat n.value 0 4294967295)
    else none
  else none

/-- `number::number_to_u64` (src/number.rs:127-137). -/
def number_to_u64 (n : Number) : Option Int :=
  if is_integer n then
    if n.value ≤ u64_max_as_f64 ∧ n.value ≥ u64_min_as_f64 then
      some (rat_as_int_sat n.value 0 18446744073709551615)
    else none
  else none

/-- `number::number_to_u128` (src/number.rs:91-101). -/
def number_to_u128 (n : Number) : Option Int :=
  if is_integer n then
    if n.value ≤ u128_max_as_f64 ∧ n.value ≥ u128_min_as_f64 then
      some (rat_as_int_sat n.value 0 340282366920938463463374607431768211455)
    else none
  else none

/-- `number::number_to_unexpected` (src/number.rs:13-29): the most specific
generic "unexpected value" descriptor for a numeric literal. -/
def number_to_unexpected (n : Number) : Option Unexpected :=
  if is_integer n then
    if n.value ≤ i64_max_as_f64 then
      if n.value ≥ i64_min_as_f64 then
        some (.signed (rat_as_int_sat n.value (-9223372036854775808) 9223372036854775807))
      else none
    else if n.value ≤ u64_max_as_f64 ∧ n.value ≥ 0 then
      some (.unsigned (rat_as_int_sat n.value 0 18446744073709551615))
    else none
  else some (.float n.value)

end number

/-- The fragment of `swc_ecma_ast::Lit` the engine inspects.  `bigInt`,
`regex` and `jsxText` carry their textual payload only. -/
inductive Lit where
  | bool (b : Bool)
  | num (n : Number)
  | str (s : String)
  | null
  | bigInt (s : String)
  | regex (s : String)
  | jsxText (s : String)
deriving DecidableEq

mutual

/-- The fragment of `swc_ecma_ast::Expr` the engine inspects: array and
object literals, primitive literals, bare identifiers, and `unsupported`
standing for every other expression form (all of which the engine only ever
wraps whole in an `UnexpectedExpr` error). -/
inductive Expr where
  | array (elems : List (Option ExprOrSpread))
  | object (props : List PropOrSpread)
  | lit (l : Lit)
  | ident (sym : String)
  | unsupported

/-- `swc_ecma_ast::ExprOrSpread`: one present array slot, an expression plus
a spread flag (`spread : Option<Span>`, embedded as a `Bool`).  A `none`
slot in `Expr.array` is a hole in a sparse array literal. -/
inductive ExprOrSpread where
  | mk (spread : Bool) (expr : Expr)

/-- `swc_ecma_ast::PropName`: an object key. -/
inductive PropName where
  | ident (s : String)
  | str (s : String)
  | num (n : Number)
  | computed (e : Expr)
  | bigInt (s : String)

/-- The fragment of `swc_ecma_ast::Prop` the engine distinguishes: a plain
`key: value` property, a shorthand property, and `other` standing for the
remaining forms (assign, getter, setter, method), which every code path
only ever wraps whole in an `UnexpectedProp` error. -/
inductive JsProp where
  | keyValue (key : PropName) (value : Expr)
  | shorthand (s : String)
  | other

/-- `swc_ecma_ast::PropOrSpread`: one object-literal entry.  A spread entry
carries its spread expression (`SpreadElement.expr`). -/
inductive PropOrSpread where
  | prop (p : JsProp)
  | spread (expr : Expr)

end

/-- The serde-provided error constructors the engine routes through
`serde::de::value::Error` (src/error.rs:56-88). -/
inductive SerdeError where
  | invalidType (unexp : Unexpected) (exp : String)
  | invalidValue (unexp : Unexpected) (exp : String)
  | invalidLength (len : Nat) (exp : String)
  | custom (msg : String)
deriving DecidableEq

/-- `error::Error` (src/error.rs:6-37), minus the parser-feature variant
`EcmaParse`, which wraps an opaque delegate-parser failure and is never
produced by the deserialization engine itself. -/
inductive Error where
  | invalidObjectKey (key : PropName)
  | invalidNumber (n : Number)
  | invalidLiteral (l : Lit)
  | invalidProp (p : JsProp)
  | invalidArrayElement (e : Option ExprOrSpread)
  | unexpectedBigInt (s : String)
  | unexpectedJsxText (s : String)
  | unexpectedRegex (s : String)
  | unexpectedSpread (e : Expr)
  | unexpectedProp (p : JsProp)
  | unexpectedExpr (e : Expr)
  | expectedFieldValue
  | serde (e : SerdeError)

/-- `Error::unexpected_lit` (src/error.rs:40-53): adapt a literal that does
not fit the requested shape to the most precise diagnostic. -/
def Error.unexpected_lit (l : Lit) (expected : String) : Error :=
  match l with
  | .bool b => .serde (.invalidType (.bool b) expected)
  | .bigInt s => .unexpectedBigInt s
  | .jsxText s => .unexpectedJsxText s
  | .null => .serde (.invalidType .option expected)
  | .num n =>
      match number.number_to_unexpected n with
      | none => .invalidNumber n
      | some u => .serde (.invalidType u expected)
  | .regex s => .unexpectedRegex s
  | .str s => .serde (.invalidType (.str s) expected)

/-- `prop_name_to_str` (src/lib.rs:511-516): only string-literal keys
(`as_str`) and identifier keys (`as_ident`) resolve to a string. -/
def prop_name_to_str (k : PropName) : Option String :=
  match k with
  | .str s => some s
  | .ident s => some s
  | _ => none

/-- `Vec::pop` on a Rust vector embedded as a Lean list: remove and return
the LAST element. -/
def popBack {α : Type} (l : List α) : Option (α × List α) :=
  match l.getLast? with
  | none => none
  | some a => some (a, l.dropLast)

/-- State of the sequence accessor `Seq` (src/lib.rs:518-535): the ownership
mode and the stored slot vector.  `Seq::new` keeps a borrowed slice as is;
it REVERSES an owned vector, because `next_element_seed` will consume it by
`Vec::pop` from the back. -/
structure Seq where
  mode : Mode
  values : List (Option ExprOrSpread)

/-- `Seq::new` (src/lib.rs:522-535). -/
def Seq.new (m : Mode) (values : List (Option ExprOrSpread)) : Seq :=
  { mode := m
    values :=
      match m with
      | .borrowed => values
      | .owned => values.reverse }

/-- One call of `Seq::next_element_seed` (src/lib.rs:540-574), observed as
the expression handed to the child `Deserializer` (which inherits the
accessor's mode) together with the advanced accessor, `none` at exhaustion,
or the error.  A present-but-hole slot yields `InvalidArrayElement(None)`
in both modes (the borrowed arm clones the slot, which is `None` exactly
when the error triggers).  The spread flag of a present slot is ignored,
as in the source (`expr_or_spread.expr` is extracted unconditionally). -/
def Seq.next_element (s : Seq) : Except Error (Option (Expr × Seq)) :=
  match s.mode with
  | .borrowed =>
      match s.values with
      | [] => .ok none
      | none :: _ => .error (.invalidArrayElement none)
      | some (.mk _ ex) :: rest => .ok (some (ex, ⟨.borrowed, rest⟩))
  | .owned =>
      match popBack s.values with
      | none => .ok none
      | some (none, _) => .error (.invalidArrayElement none)
      | some (some (.mk _ ex), rest) => .ok (some (ex, ⟨.owned, rest⟩))

/-- `Seq::size_hint` (src/lib.rs:576-578). -/
def Seq.size_hint (s : Seq) : Nat := s.values.length

/-- State of the map accessor `Map` (src/lib.rs:581-600): ownership mode,
remaining entries, and the at-most-one pending value expression.  As in
`Seq`, `Map::new` reverses an owned vector for back-to-front popping. -/
structure Map where
  mode : Mode
  fields : List PropOrSpread
  value : Option Expr

/-- `Map::new` (src/lib.rs:586-600). -/
def Map.new (m : Mode) (fields : List PropOrSpread) : Map :=
  { mode := m
    fields :=
      match m with
      | .borrowed => fields
      | .owned => fields.reverse
    value := none
  }

/-- One call of `Map::next_key_seed` (src/lib.rs:605-655), observed as the
resolved key string (the seed receives `key_str.into_deserializer()`) plus
the advanced accessor with the entry's value expression stashed as pending,
`none` at exhaustion, or the error.  Note the two ownership arms fail
differently on a key that is neither identifier nor string literal: the
borrowed arm wraps the whole property in `UnexpectedProp`, the owned arm
wraps the key in `InvalidObjectKey`.  (On the error paths the source may
also have mutated `self.value` before failing; serde aborts the whole
deserialization on error, so the post-error state is unobservable and is
not tracked here.) -/
def Map.next_key (mp : Map) : Except Error (Option (String × Map)) :=
  match mp.mode with
  | .borrowed =>
      match mp.fields with
      | [] => .ok none
      | .prop (.keyValue k v) :: rest =>
          match prop_name_to_str k with
          | none => .error (.unexpectedProp (.keyValue k v))
          | some s => .ok (some (s, ⟨.borrowed, rest, some v⟩))
      | .prop p :: _ => .error (.unexpectedProp p)
      | .spread e :: _ => .error (.unexpectedSpread e)
  | .owned =>
      match popBack mp.fields with
      | none => .ok none
      | some (.prop (.keyValue k v), rest) =>
          match prop_name_to_str k with
          | none => .error (.invalidObjectKey k)
          | some s => .ok (some (s, ⟨.owned, rest, some v⟩))
      | some (.prop p, _) => .error (.unexpectedProp p)
      | some (.spread e, _) => .error (.unexpectedSpread e)

/-- `Map::next_value_seed` (src/lib.rs:657-665): `self.value.take()` — hand
the pending value expression to the child `Deserializer`, or fail with
`ExpectedFieldValue` when none is pending. -/
def Map.next_value (mp : Map) : Except Error (Expr × Map) :=
  match mp.value with
  | none => .error .expectedFieldValue
  | some v => .ok (v, { mp with value := none })

/-- `Map::size_hint` (src/lib.rs:667-669). -/
def Map.size_hint (mp : Map) : Nat := mp.fields.length

/-- The outcome of `deserialize_enum`'s tag resolution (src/lib.rs:150-224),
as observed by the visitor: a bare string or identifier tag is handed to
serde's plain string deserializer (`str.into_deserializer()`), here
`unitLike`; a single-entry object resolves to the engine's own
`Enum { key, value }` accessor, here `tagged` (the payload keeps the
object's ownership mode). -/
inductive EnumResolution where
  | unitLike (tag : String)
  | tagged (mode : Mode) (tag : String) (payload : Expr)

/-- `Deserializer::deserialize_enum` (src/lib.rs:150-224).  The owned
singleton-object arm pops its only entry; the `None` pop result after the
length-1 check is unreachable and omitted. -/
def deserialize_enum (m : Mode) (e : Expr) : Except Error EnumResolution :=
  match e with
  | .lit (.str s) => .ok (.unitLike s)
  | .object props =>
      match props with
      | [.prop (.keyValue k v)] =>
          match prop_name_to_str k with
          | some s => .ok (.tagged m s v)
          | none =>
              match m with
              | .borrowed => .error (.unexpectedProp (.keyValue k v))
              | .owned => .error (.invalidObjectKey k)
      | [.prop p] => .error (.unexpectedProp p)
      | [.spread sp] => .error (.unexpectedSpread sp)
      | _ => .error (.serde (.invalidLength props.length "1"))
  | .ident s => .ok (.unitLike s)
  | .lit l => .error (Error.unexpected_lit l "enumeration")
  | .array _ => .error (.serde (.invalidType .seq "enumeration"))
  | .unsupported => .error (.unexpectedExpr .unsupported)

/-- `unit_variant` on a resolved enum tag.  For the object-tagged form this
is the engine's own `VariantAccess::unit_variant` (src/lib.rs:694-696),
which always fails with `UnexpectedExpr(payload)`.  A bare string or
identifier tag was handed to serde's plain string deserializer
(src/lib.rs:159-164, 220), whose variant access (serde's `UnitOnly`)
accepts a unit variant; the repository's own `test_struct` test relies on
this (`TestEnum::Orange` deserialized from the bare identifier `Orange`,
src/lib.rs:789-820). -/
def EnumResolution.unit_variant : EnumResolution → Except Error Unit
  | .unitLike _ => .ok ()
  | .tagged _ _ payload => .error (.unexpectedExpr payload)

/-- `newtype_variant` on a resolved enum tag: the engine's
`VariantAccess::newtype_variant_seed` (src/lib.rs:698-703) re-dispatches the
payload in the accessor's mode; serde's `UnitOnly` (bare tags) rejects it
with `invalid_type(UnitVariant, "newtype variant")` — recorded here as a
serde custom error, since the engine never inspects its contents. -/
def EnumResolution.newtype_variant : EnumResolution → Except Error (Mode × Expr)
  | .unitLike _ => .error (.serde (.custom "invalid type: unit variant, expected newtype variant"))
  | .tagged m _ payload => .ok (m, payload)

/-- The universal value target (the shape of `serde_json::Value`): the value
built when deserialization is driven by a generic value visitor, i.e. what
`from_expr::<serde_json::Value>` produces.  Objects are kept as ordered
association lists, so the observation is at least as discriminating as any
concrete map container. -/
inductive JsValue where
  | null
  | bool (b : Bool)
  | int (i : Int)
  | float (q : Rat)
  | str (s : String)
  | arr (vs : List JsValue)
  | obj (kvs : List (String × JsValue))

mutual

/-- `T::deserialize(Deserializer { expr })` at the universal value target:
the generic value visitor always enters through `deserialize_any`
(src/lib.rs:62-82).  Branches:
array → `deserialize_seq` (src/lib.rs:352-362), which wraps the slots in
`Seq::new` and lets the visitor loop over `next_element_seed`
(src/lib.rs:540-574) — the owned arm reverses the vector and then pops from
the back, i.e. it walks `(elems.reverse).reverse`;
object → `deserialize_map` (src/lib.rs:332-342), same protocol via
`Map::new`/`next_key_seed`/`next_value_seed` (src/lib.rs:605-665);
integer-classified numeric literal → `deserialize_i64` (src/lib.rs:296-308),
i.e. `number_to_i64` or `Error::unexpected_lit(lit, "i64")`;
other numeric literal → `deserialize_f64` (visit_f64 of the value);
bool/str/null literal → their natural visits; identifier →
`deserialize_str`; any other literal or expression → `UnexpectedExpr`
carrying the whole node. -/
def deserialize_value (m : Mode) (e : Expr) : Except Error JsValue :=
  match e with
  | .array es =>
      match m with
      | .borrowed =>
          match elems_borrowed es with
          | .error er => .error er
          | .ok vs => .ok (.arr vs)
      | .owned =>
          match elems_owned es.reverse.reverse with
          | .error er => .error er
          | .ok vs => .ok (.arr vs)
  | .object ps =>
      match m with
      | .borrowed =>
          match fields_borrowed ps with
          | .error er => .error er
          | .ok kvs => .ok (.obj kvs)
      | .owned =>
          match fields_owned ps.reverse.reverse with
          | .error er => .error er
          | .ok kvs => .ok (.obj kvs)
  | .lit (.bool b) => .ok (.bool b)
  | .lit (.num n) =>
      if number.is_integer n then
        match number.number_to_i64 n with
        | some i => .ok (.int i)
        | none => .error (Error.unexpected_lit (.num n) "i64")
      else .ok (.float n.value)
  | .lit .null => .ok .null
  | .lit (.str s) => .ok (.str s)
  | .lit l => .error (.unexpectedExpr (.lit l))
  | .ident s => .ok (.str s)
  | .unsupported => .error (.unexpectedExpr .unsupported)
termination_by sizeOf e
decreasing_by
  all_goals simp_wf

/-- The visitor's `visit_seq` loop over a borrowed `Seq`
(src/lib.rs:544-561): slots are read front to back; a hole fails with
`InvalidArrayElement(None)`; each present slot's expression is deserialized
borrowed; the first error aborts. -/
def elems_borrowed (l : List (Option ExprOrSpread)) : Except Error (List JsValue) :=
  match l with
  | [] => .ok []
  | none :: _ => .error (.invalidArrayElement none)
  | some (.mk _ ex) :: rest =>
      match deserialize_value .borrowed ex with
      | .error er => .error er
      | .ok v =>
          match elems_borrowed rest with
          | .error er => .error er
          | .ok vs => .ok (v :: vs)
termination_by sizeOf l
decreasing_by
  all_goals simp_wf
  all_goals omega

/-- The visitor's `visit_seq` loop over an owned `Seq`
(src/lib.rs:563-572): `Vec::pop` from the back of the storage that
`Seq::new` reversed, so the walk order over the storage `st` is
`st.reverse` front to back (`deserialize_value` passes `es.reverse` as the
storage).  Holes and child dispatch as in the borrowed arm, with owned
children. -/
def elems_owned (l : List (Option ExprOrSpread)) : Except Error (List JsValue) :=
  match l with
  | [] => .ok []
  | none :: _ => .error (.invalidArrayElement none)
  | some (.mk _ ex) :: rest =>
      match deserialize_value .owned ex with
      | .error er => .error er
      | .ok v =>
          match elems_owned rest with
          | .error er => .error er
          | .ok vs => .ok (v :: vs)
termination_by sizeOf l
decreasing_by
  all_goals simp_wf
  all_goals omega

/-- The visitor's `visit_map` loop over a borrowed `Map`
(src/lib.rs:610-636, 657-665): entries front to back; a spread entry or a
non-key-value property fails; a key that is neither identifier nor string
literal fails with `UnexpectedProp` carrying the whole property; otherwise
the key string is yielded and the pending value expression is deserialized
borrowed. -/
def fields_borrowed (l : List PropOrSpread) : Except Error (List (String × JsValue)) :=
  match l with
  | [] => .ok []
  | .prop (.keyValue k v) :: rest =>
      match prop_name_to_str k with
      | none => .error (.unexpectedProp (.keyValue k v))
      | some s =>
          match deserialize_value .borrowed v with
          | .error er => .error er
          | .ok jv =>
              match fields_borrowed rest with
              | .error er => .error er
              | .ok kvs => .ok ((s, jv) :: kvs)
  | .prop p :: _ => .error (.unexpectedProp p)
  | .spread e :: _ => .error (.unexpectedSpread e)
termination_by sizeOf l
decreasing_by
  all_goals simp_wf
  all_goals omega

/-- The visitor's `visit_map` loop over an owned `Map`
(src/lib.rs:637-654, 657-665): popping the reversed storage back to front
(see `elems_owned`); differs from the borrowed loop in that a bad key fails
with `InvalidObjectKey` carrying the key, and children are owned. -/
def fields_owned (l : List PropOrSpread) : Except Error (List (String × JsValue)) :=
  match l with
  | [] => .ok []
  | .prop (.keyValue k v) :: rest =>
      match prop_name_to_str k with
      | none => .error (.invalidObjectKey k)
      | some s =>
          match deserialize_value .owned v with
          | .error er => .error er
          | .ok jv =>
              match fields_owned rest with
              | .error er => .error er
              | .ok kvs => .ok ((s, jv) :: kvs)
  | .prop p :: _ => .error (.unexpectedProp p)
  | .spread e :: _ => .error (.unexpectedSpread e)
termination_by sizeOf l
decreasing_by
  all_goals simp_wf
  all_goals omega

end

/-- `from_expr::<Value>` (src/lib.rs:45-49): borrowed-mode deserialization
of a caller-owned tree at the universal value target. -/
def from_expr (e : Expr) : Except Error JsValue :=
  deserialize_value .borrowed e

/-- The owned-mode entry point (what `from_str` does after parsing,
src/lib.rs:40-42: the root node is moved into the engine). -/
def from_expr_owned (e : Expr) : Except Error JsValue :=
  deserialize_value .owned e

/-- The one observable difference between the two ownership modes: a plain
key-value property whose key is neither an identifier nor a string literal
is reported as `UnexpectedProp(prop)` by the borrowed arms and as
`InvalidObjectKey(key)` by the owned arms (src/lib.rs:621-623 vs 644-645,
and 170-172 vs 194-196). -/
def errAdjust : Error → Error
  | .unexpectedProp (.keyValue k _) => .invalidObjectKey k
  | e => e

/-- Discriminator: is this error an `InvalidObjectKey`? -/
def Error.is_invalid_object_key : Error → Bool
  | .invalidObjectKey _ => true
  | _ => false

/-! ## Support lemmas -/

theorem coerce_isSome_iff (b : Bool) (p : Prop) [Decidable p] (v : Int) :
    ((if b then (if p then some v else none) else none) : Option Int).isSome = true ↔
      (b = true ∧ p) := by
  by_cases hb : b <;> by_cases hp : p <;> simp [hb, hp]

/-! ## C4 — textual "integer" classification -/

/-- C4: a numeric literal's classification as "integer" is decided solely by
the absence of a `'.'` in its original source text (when the source text is
absent the literal is never classified as an integer), and is independent of
the computed floating value. -/
theorem c4_textual_classification :
    (∀ (n : Number) (s : String), n.raw = some s →
      (number.is_integer n = true ↔ s.data.contains '.' = false))
    ∧ (∀ n : Number, n.raw = none → number.is_integer n = false)
    ∧ (∀ (v v' : Rat) (r : Option String),
        number.is_integer ⟨v, r⟩ = number.is_integer ⟨v', r⟩) := by
  refine ⟨?_, ?_, ?_⟩
  · intro n s h
    simp [number.is_integer, h]
  · intro n h
    simp [number.is_integer, h]
  · intro v v' r
    cases r <;> rfl

/-- C4 witness: `1.5` (raw text with a decimal point) is not classified as
an integer, by the classification theorem at that concrete literal. -/
theorem c4_witness :
    (Number.mk (3 / 2) (some "1.5")).raw = some "1.5"
    ∧ (number.is_integer ⟨3 / 2, some "1.5"⟩ = true ↔ ("1.5").data.contains '.' = false) :=
  ⟨rfl, c4_textual_classification.1 ⟨3 / 2, some "1.5"⟩ "1.5" rfl⟩

/-! ## C2 — the `Some`/`None` condition of the ten integer coercions -/

/-- C2 (amended): each coercion returns `Some` iff the literal is textually
classified as an integer and its floating value lies within the interval
`[MIN as f64, MAX as f64]` — the type's bounds as Rust evaluates them in
`f64`.  For the 8/16/32-bit types these are exactly `[MIN, MAX]`; for the
64- and 128-bit types the upper bound rounds up to `MAX + 1`. -/
theorem c2_coercion_bounds_as_f64 (n : Number) :
    ((number.number_to_i8 n).isSome = true ↔
      (number.is_integer n = true ∧ n.value ≤ number.i8_max_as_f64 ∧ n.value ≥ number.i8_min_as_f64))
    ∧ ((number.number_to_i16 n).isSome = true ↔
      (number.is_integer n = true ∧ n.value ≤ number.i16_max_as_f64 ∧ n.value ≥ number.i16_min_as_f64))
    ∧ ((number.number_to_i32 n).isSome = true ↔
      (number.is_integer n = true ∧ n.value ≤ number.i32_max_as_f64 ∧ n.value ≥ number.i32_min_as_f64))
    ∧ ((number.number_to_i64 n).isSome = true ↔
      (number.is_integer n = true ∧ n.value ≤ number.i64_max_as_f64 ∧ n.value ≥ number.i64_min_as_f64))
    ∧ ((number.number_to_i128 n).isSome = true ↔
      (number.is_integer n = true ∧ n.value ≤ number.i128_max_as_f64 ∧ n.value ≥ number.i128_min_as_f64))
    ∧ ((number.number_to_u8 n).isSome = true ↔
      (number.is_integer n = true ∧ n.value ≤ number.u8_max_as_f64 ∧ n.value ≥ number.u8_min_as_f64))
    ∧ ((number.number_to_u16 n).isSome = true ↔
      (number.is_integer n = true ∧ n.value ≤ number.u16_max_as_f64 ∧ n.value ≥ number.u16_min_as_f64))
    ∧ ((number.number_to_u32 n).isSome = true ↔
      (number.is_integer n = true ∧ n.value ≤ number.u32_max_as_f64 ∧ n.value ≥ number.u32_min_as_f64))
    ∧ ((number.number_to_u64 n).isSome = true ↔
      (number.is_integer n = true ∧ n.value ≤ number.u64_max_as_f64 ∧ n.value ≥ number.u64_min_as_f64))
    ∧ ((number.number_to_u128 n).isSome = true ↔
      (number.is_integer n = true ∧ n.value ≤ number.u128_max_as_f64 ∧ n.value ≥ number.u128_min_as_f64)) :=
  ⟨by simp only [number.number_to_i8]; exact coerce_isSome_iff _ _ _,
   by simp only [number.number_to_i16]; exact coerce_isSome_iff _ _ _,
   by simp only [number.number_to_i32]; exact coerce_isSome_iff _ _ _,
   by simp only [number.number_to_i64]; exact coerce_isSome_iff _ _ _,
   by simp only [number.number_to_i128]; exact coerce_isSome_iff _ _ _,
   by simp only [number.number_to_u8]; exact coerce_isSome_iff _ _ _,
   by simp only [number.number_to_u16]; exact coerce_isSome_iff _ _ _,
   by simp only [number.number_to_u32]; exact coerce_isSome_iff _ _ _,
   by simp only [number.number_to_u64]; exact coerce_isSome_iff _ _ _,
   by simp only [number.number_to_u128]; exact coerce_isSome_iff _ _ _⟩

/-- C2 counterexample: the integer-classified literal with floating value
`2^64` (one past `u64::MAX`, e.g. source text `18446744073709551616`) is
NOT within `[u64::MIN, u64::MAX]`, yet `number_to_u64` returns `Some`
(the saturating cast yields `u64::MAX`), because the code's upper bound
`u64::MAX as f64` equals `2^64`.  This refutes the claim that `Some` is
returned only when the value lies within `[MIN, MAX]`. -/
theorem c2_counterexample :
    number.number_to_u64 ⟨18446744073709551616, some "18446744073709551616"⟩ =
      some 18446744073709551615
    ∧ ¬((18446744073709551616 : Rat) ≤ ((18446744073709551615 : Int) : Rat)) := by
  constructor
  · decide
  · norm_num


/-! ## C3 — integer width boundaries -/

/-- C3 (amended): for every one of the ten integer widths, an
integer-classified literal whose value equals the width's minimum or
maximum succeeds, and one unit below the minimum fails; one unit past the
maximum fails for the 8/16/32-bit widths, but SUCCEEDS for the 64- and
128-bit widths (saturating to the maximum), because there the code's upper
bound `MAX as f64` rounds up to `MAX + 1`; and a literal whose source text
carries a decimal point fails against every integer width regardless of
value. -/
theorem c3_integer_width_boundaries :
    ((∀ n : Number, number.is_integer n = true → n.value = (-128) →
        (number.number_to_i8 n).isSome = true)
      ∧ (∀ n : Number, number.is_integer n = true → n.value = 127 →
        (number.number_to_i8 n).isSome = true)
      ∧ (∀ n : Number, number.is_integer n = true → n.value = (-129) →
        number.number_to_i8 n = none)
      ∧ (∀ n : Number, number.is_integer n = true → n.value = 128 →
        number.number_to_i8 n = none))
    ∧     ((∀ n : Number, number.is_integer n = true → n.value = (-32768) →
        (number.number_to_i16 n).isSome = true)
      ∧ (∀ n : Number, number.is_integer n = true → n.value = 32767 →
        (number.number_to_i16 n).isSome = true)
      ∧ (∀ n : Number, number.is_integer n = true → n.value = (-32769) →
        number.number_to_i16 n = none)
      ∧ (∀ n : Number, number.is_integer n = true → n.value = 32768 →
        number.number_to_i16 n = none))
    ∧     ((∀ n : Number, number.is_integer n = true → n.value = (-2147483648) →
        (number.number_to_i32 n).isSome = true)
      ∧ (∀ n : Number, number.is_integer n = true → n.value = 2147483647 →
        (number.number_to_i32 n).isSome = true)
      ∧ (∀ n : Number, number.is_integer n = true → n.value = (-2147483649) →
        number.number_to_i32 n = none)
      ∧ (∀ n : Number, number.is_integer n = true → n.value = 2147483648 →
        number.number_to_i32 n = none))
    ∧     ((∀ n : Number, number.is_integer n = true → n.value = (-9223372036854775808) →
        (number.number_to_i64 n).isSome = true)
      ∧ (∀ n : Number, number.is_integer n = true → n.value = 9223372036854775807 →
        (number.number_to_i64 n).isSome = true)
      ∧ (∀ n : Number, number.is_integer n = true → n.value = (-9223372036854775809) →
        number.number_to_i64 n = none)
      ∧ (∀ n : Number, number.is_integer n = true → n.value = 9223372036854775808 →
        number.number_to_i64 n = some 9223372036854775807))
    ∧     ((∀ n : Number, number.is_integer n = true → n.value = (-170141183460469231731687303715884105728) →
        (number.number_to_i128 n).isSome = true)
      ∧ (∀ n : Number, number.is_integer n = true → n.value = 170141183460469231731687303715884105727 →
        (number.number_to_i128 n).isSome = true)
      ∧ (∀ n : Number, number.is_integer n = true → n.value = (-170141183460469231731687303715884105729) →
        number.number_to_i128 n = none)
      ∧ (∀ n : Number, number.is_integer n = true → n.value = 170141183460469231731687303715884105728 →
        number.number_to_i128 n = some 170141183460469231731687303715884105727))
    ∧     ((∀ n : Number, number.is_integer n = true → n.value = 0 →
        (number.number_to_u8 n).isSome = true)
      ∧ (∀ n : Number, number.is_integer n = true → n.value = 255 →
        (number.number_to_u8 n).isSome = true)
      ∧ (∀ n : Number, number.is_integer n = true → n.value = (-1) →
        number.number_to_u8 n = none)
      ∧ (∀ n : Number, number.is_integer n = true → n.value = 256 →
        number.number_to_u8 n = none))
    ∧     ((∀ n : Number, number.is_integer n = true → n.value = 0 →
        (number.number_to_u16 n).isSome = true)
      ∧ (∀ n : Number, number.is_integer n = true → n.value = 65535 →
        (number.number_to_u16 n).isSome = true)
      ∧ (∀ n : Number, number.is_integer n = true → n.value = (-1) →
        number.number_to_u16 n = none)
      ∧ (∀ n : Number, number.is_integer n = true → n.value = 65536 →
        number.number_to_u16 n = none))
    ∧     ((∀ n : Number, number.is_integer n = true → n.value = 0 →
        (number.number_to_u32 n).isSome = true)
      ∧ (∀ n : Number, number.is_integer n = true → n.value = 4294967295 →
        (number.number_to_u32 n).isSome = true)
      ∧ (∀ n : Number, number.is_integer n = true → n.value = (-1) →
        number.number_to_u32 n = none)
      ∧ (∀ n : Number, number.is_integer n = true → n.value = 4294967296 →
        number.number_to_u32 n = none))
    ∧     ((∀ n : Number, number.is_integer n = true → n.value = 0 →
        (number.number_to_u64 n).isSome = true)
      ∧ (∀ n : Number, number.is_integer n = true → n.value = 18446744073709551615 →
        (number.number_to_u64 n).isSome = true)
      ∧ (∀ n : Number, number.is_integer n = true → n.value = (-1) →
        number.number_to_u64 n = none)
      ∧ (∀ n : Number, number.is_integer n = true → n.value = 18446744073709551616 →
        number.number_to_u64 n = some 18446744073709551615))
    ∧     ((∀ n : Number, number.is_integer n = true → n.value = 0 →
        (number.number_to_u128 n).isSome = true)
      ∧ (∀ n : Number, number.is_integer n = true → n.value = 340282366920938463463374607431768211455 →
        (number.number_to_u128 n).isSome = true)
      ∧ (∀ n : Number, number.is_integer n = true → n.value = (-1) →
        number.number_to_u128 n = none)
      ∧ (∀ n : Number, number.is_integer n = true → n.value = 340282366920938463463374607431768211456 →
        number.number_to_u128 n = some 340282366920938463463374607431768211455))
    ∧ (∀ (n : Number) (s : String), n.raw = some s → s.data.contains '.' = true →
        number.number_to_i8 n = none ∧ number.number_to_i16 n = none ∧ number.number_to_i32 n = none ∧ number.number_to_i64 n = none ∧ number.number_to_i128 n = none ∧ number.number_to_u8 n = none ∧ number.number_to_u16 n = none ∧ number.number_to_u32 n = none ∧ number.number_to_u64 n = none ∧ number.number_to_u128 n = none) := by
  refine ⟨?_, ?_, ?_, ?_, ?_, ?_, ?_, ?_, ?_, ?_, ?_⟩
  · exact ⟨fun n hi hv => by simp only [number.number_to_i8, hi, hv]; decide,
      fun n hi hv => by simp only [number.number_to_i8, hi, hv]; decide,
      fun n hi hv => by simp only [number.number_to_i8, hi, hv]; decide,
      fun n hi hv => by simp only [number.number_to_i8, hi, hv]; decide⟩
  · exact ⟨fun n hi hv => by simp only [number.number_to_i16, hi, hv]; decide,
      fun n hi hv => by simp only [number.number_to_i16, hi, hv]; decide,
      fun n hi hv => by simp only [number.number_to_i16, hi, hv]; decide,
      fun n hi hv => by simp only [number.number_to_i16, hi, hv]; decide⟩
  · exact ⟨fun n hi hv => by simp only [number.number_to_i32, hi, hv]; decide,
      fun n hi hv => by simp only [number.number_to_i32, hi, hv]; decide,
      fun n hi hv => by simp only [number.number_to_i32, hi, hv]; decide,
      fun n hi hv => by simp only [number.number_to_i32, hi, hv]; decide⟩
  · exact ⟨fun n hi hv => by simp only [number.number_to_i64, hi, hv]; decide,
      fun n hi hv => by simp only [number.number_to_i64, hi, hv]; decide,
      fun n hi hv => by simp only [number.number_to_i64, hi, hv]; decide,
      fun n hi hv => by simp only [number.number_to_i64, hi, hv]; decide⟩
  · exact ⟨fun n hi hv => by simp only [number.number_to_i128, hi, hv]; decide,
      fun n hi hv => by simp only [number.number_to_i128, hi, hv]; decide,
      fun n hi hv => by simp only [number.number_to_i128, hi, hv]; decide,
      fun n hi hv => by simp only [number.number_to_i128, hi, hv]; decide⟩
  · exact ⟨fun n hi hv => by simp only [number.number_to_u8, hi, hv]; decide,
      fun n hi hv => by simp only [number.number_to_u8, hi, hv]; decide,
      fun n hi hv => by simp only [number.number_to_u8, hi, hv]; decide,
      fun n hi hv => by simp only [number.number_to_u8, hi, hv]; decide⟩
  · exact ⟨fun n hi hv => by simp only [number.number_to_u16, hi, hv]; decide,
      fun n hi hv => by simp only [number.number_to_u16, hi, hv]; decide,
      fun n hi hv => by simp only [number.number_to_u16, hi, hv]; decide,
      fun n hi hv => by simp only [number.number_to_u16, hi, hv]; decide⟩
  · exact ⟨fun n hi hv => by simp only [number.number_to_u32, hi, hv]; decide,
      fun n hi hv => by simp only [number.number_to_u32, hi, hv]; decide,
      fun n hi hv => by simp only [number.number_to_u32, hi, hv]; decide,
      fun n hi hv => by simp only [number.number_to_u32, hi, hv]; decide⟩
  · exact ⟨fun n hi hv => by simp only [number.number_to_u64, hi, hv]; decide,
      fun n hi hv => by simp only [number.number_to_u64, hi, hv]; decide,
      fun n hi hv => by simp only [number.number_to_u64, hi, hv]; decide,
      fun n hi hv => by simp only [number.number_to_u64, hi, hv]; decide⟩
  · exact ⟨fun n hi hv => by simp only [number.number_to_u128, hi, hv]; decide,
      fun n hi hv => by simp only [number.number_to_u128, hi, hv]; decide,
      fun n hi hv => by simp only [number.number_to_u128, hi, hv]; decide,
      fun n hi hv => by simp only [number.number_to_u128, hi, hv]; decide⟩
  · intro n s hr hc
    have hm : ('.') ∈ s.data := by simpa using hc
    have hi : number.is_integer n = false := by simp [number.is_integer, hr, hm]
    exact ⟨by simp [number.number_to_i8, hi], by simp [number.number_to_i16, hi], by simp [number.number_to_i32, hi], by simp [number.number_to_i64, hi], by simp [number.number_to_i128, hi], by simp [number.number_to_u8, hi], by simp [number.number_to_u16, hi], by simp [number.number_to_u32, hi], by simp [number.number_to_u64, hi], by simp [number.number_to_u128, hi]⟩

/-- C3 witness: the claim theorem applied at the concrete literal `-128`
against the 8-bit signed width. -/
theorem c3_witness :
    number.is_integer ⟨-128, some "-128"⟩ = true
    ∧ (number.number_to_i8 ⟨-128, some "-128"⟩).isSome = true :=
  ⟨by decide, c3_integer_width_boundaries.1.1 ⟨-128, some "-128"⟩ (by decide) rfl⟩

/-- C3 counterexample: the integer-classified literal with value `2^63` is
one unit past `i64::MAX`, yet `number_to_i64` SUCCEEDS (saturating to
`i64::MAX`) instead of failing with a range error, refuting the claim for
the 64-bit width. -/
theorem c3_counterexample :
    number.is_integer ⟨9223372036854775808, some "9223372036854775808"⟩ = true
    ∧ (9223372036854775808 : Rat) = ((9223372036854775807 : Int) : Rat) + 1
    ∧ number.number_to_i64 ⟨9223372036854775808, some "9223372036854775808"⟩ =
        some 9223372036854775807 := by
  refine ⟨by decide, by norm_num, by decide⟩

/-! ## Accessor mechanics: popping the reversed owned storage -/

theorem popBack_concat {α : Type} (l : List α) (a : α) : popBack (l ++ [a]) = some (a, l) := by
  simp [popBack, List.getLast?_concat, List.dropLast_concat]

theorem popBack_reverse_cons {α : Type} (x : α) (t : List α) :
    popBack ((x :: t).reverse) = some (x, t.reverse) := by
  rw [List.reverse_cons]; exact popBack_concat _ _

theorem popBack_nil {α : Type} : popBack ([] : List α) = none := rfl

/-! ## C6 — enum tag resolution -/

/-- C6 (amended): at the enum shape, a bare string literal or bare
identifier resolves to that text as the variant tag; an object with exactly
one entry that is a plain key-value property whose key is an identifier or
string literal resolves to (key, value) as (variant, payload); a single
plain key-value entry with any other key form fails (unexpected-property
when borrowed, invalid-object-key when owned); and an object with zero or
two-or-more entries fails with an invalid-length error (expected exactly
1). -/
theorem c6_enum_tag_resolution :
    (∀ (m : Mode) (s : String), deserialize_enum m (.lit (.str s)) = .ok (.unitLike s))
    ∧ (∀ (m : Mode) (s : String), deserialize_enum m (.ident s) = .ok (.unitLike s))
    ∧ (∀ (m : Mode) (k : PropName) (v : Expr) (s : String), prop_name_to_str k = some s →
        deserialize_enum m (.object [.prop (.keyValue k v)]) = .ok (.tagged m s v))
    ∧ (∀ (k : PropName) (v : Expr), prop_name_to_str k = none →
        deserialize_enum .borrowed (.object [.prop (.keyValue k v)]) =
          .error (.unexpectedProp (.keyValue k v))
        ∧ deserialize_enum .owned (.object [.prop (.keyValue k v)]) =
          .error (.invalidObjectKey k))
    ∧ (∀ (m : Mode) (ps : List PropOrSpread), ps.length ≠ 1 →
        deserialize_enum m (.object ps) = .error (.serde (.invalidLength ps.length "1"))) := by
  refine ⟨fun m s => rfl, fun m s => rfl, ?_, ?_, ?_⟩
  · intro m k v s h
    simp [deserialize_enum, h]
  · intro k v h
    exact ⟨by simp [deserialize_enum, h], by simp [deserialize_enum, h]⟩
  · intro m ps h
    match ps with
    | [] => rfl
    | [x] => exact absurd rfl h
    | x :: y :: t =>
      cases x with
      | prop p => cases p <;> rfl
      | spread e => rfl

/-- C6 witness: the resolution theorem applied at the single-entry object
with identifier key `Apple` and empty-object payload. -/
theorem c6_witness :
    prop_name_to_str (.ident "Apple") = some "Apple"
    ∧ deserialize_enum .borrowed (.object [.prop (.keyValue (.ident "Apple") (.object []))]) =
        .ok (.tagged .borrowed "Apple" (.object [])) :=
  ⟨rfl, c6_enum_tag_resolution.2.2.1 .borrowed (.ident "Apple") (.object []) "Apple" rfl⟩

/-- C6 counterexample: an object with exactly one entry that IS a plain
key-value property, but with a numeric key, does not decode to
(key, value): it fails (here owned mode, with `InvalidObjectKey`). -/
theorem c6_counterexample :
    deserialize_enum .owned (.object [.prop (.keyValue (.num ⟨1, some "1"⟩) (.lit .null))]) =
      .error (.invalidObjectKey (.num ⟨1, some "1"⟩)) := rfl

/-! ## C7 — unit-variant access -/

/-- C7 (amended): after tag resolution from a single-entry object (the
`tagged` form), requesting unit-variant access always fails with
`UnexpectedExpr(payload)`, whatever the payload; but a tag resolved from a
bare string literal or bare identifier is handed to serde's plain string
deserializer, whose unit-variant access SUCCEEDS. -/
theorem c7_unit_variant_access :
    (∀ (md : Mode) (t : String) (p : Expr),
        (EnumResolution.tagged md t p).unit_variant = .error (.unexpectedExpr p))
    ∧ (∀ s : String, (EnumResolution.unitLike s).unit_variant = .ok ())
    ∧ (∀ (m : Mode) (s : String),
        deserialize_enum m (.lit (.str s)) = .ok (.unitLike s)
        ∧ deserialize_enum m (.ident s) = .ok (.unitLike s)) :=
  ⟨fun _ _ _ => rfl, fun _ => rfl, fun _ _ => ⟨rfl, rfl⟩⟩

/-- C7 counterexample: a bare identifier tag (`Orange`, exactly as in the
repository's own `test_struct` test) resolves with no payload, and a
unit-variant request against it SUCCEEDS — refuting the claim that
unit-variant access always fails. -/
theorem c7_counterexample :
    deserialize_enum .borrowed (.ident "Orange") = .ok (.unitLike "Orange")
    ∧ (EnumResolution.unitLike "Orange").unit_variant = .ok () :=
  ⟨rfl, rfl⟩

/-! ## C8 — map key resolution -/

/-- C8 (amended): when `next_key` meets a plain key-value entry it resolves
the key to a string exactly for identifier and string-literal keys, in both
ownership modes; for any other key expression it fails — with an
unexpected-property error (carrying the whole property) in borrowed mode,
and an invalid-object-key error in owned mode. -/
theorem c8_map_key_resolution :
    (∀ (rest : List PropOrSpread) (k : PropName) (v : Expr) (s : String),
        prop_name_to_str k = some s →
        (Map.new .borrowed (.prop (.keyValue k v) :: rest)).next_key =
          .ok (some (s, ⟨.borrowed, rest, some v⟩)))
    ∧ (∀ (rest : List PropOrSpread) (k : PropName) (v : Expr) (s : String),
        prop_name_to_str k = some s →
        (Map.new .owned (.prop (.keyValue k v) :: rest)).next_key =
          .ok (some (s, ⟨.owned, rest.reverse, some v⟩)))
    ∧ (∀ (rest : List PropOrSpread) (k : PropName) (v : Expr),
        prop_name_to_str k = none →
        (Map.new .borrowed (.prop (.keyValue k v) :: rest)).next_key =
          .error (.unexpectedProp (.keyValue k v))
        ∧ (Map.new .owned (.prop (.keyValue k v) :: rest)).next_key =
          .error (.invalidObjectKey k))
    ∧ (∀ k : PropName,
        (∃ s, prop_name_to_str k = some s) ↔ ((∃ s, k = .ident s) ∨ (∃ s, k = .str s))) := by
  refine ⟨?_, ?_, ?_, ?_⟩
  · intro rest k v s h
    simp [Map.new, Map.next_key, h]
  · intro rest k v s h
    simp [Map.new, Map.next_key, popBack_concat, h]
  · intro rest k v h
    exact ⟨by simp [Map.new, Map.next_key, h],
      by simp [Map.new, Map.next_key, popBack_concat, h]⟩
  · intro k
    cases k <;> simp [prop_name_to_str]

/-- C8 witness: the resolution theorem applied at a string-literal key in
borrowed mode. -/
theorem c8_witness :
    prop_name_to_str (.str "a") = some "a"
    ∧ (Map.new .borrowed [.prop (.keyValue (.str "a") (.lit .null))]).next_key =
        .ok (some ("a", ⟨.borrowed, [], some (.lit .null)⟩)) :=
  ⟨rfl, c8_map_key_resolution.1 [] (.str "a") (.lit .null) "a" rfl⟩

/-- C8 counterexample: in BORROWED mode a numeric object key fails with
`UnexpectedProp`, not with an invalid-object-key error — refuting the
claim that both ownership modes fail with invalid-object-key. -/
theorem c8_counterexample :
    (Map.new .borrowed [.prop (.keyValue (.num ⟨1, some "1"⟩) (.lit .null))]).next_key =
      .error (.unexpectedProp (.keyValue (.num ⟨1, some "1"⟩) (.lit .null)))
    ∧ (Error.unexpectedProp
        (.keyValue (.num ⟨1, some "1"⟩) (.lit .null))).is_invalid_object_key = false :=
  ⟨rfl, rfl⟩

/-! ## C9 — hole, shorthand and spread failures -/

/-- C9: pulling from the sequence accessor at a present-but-hole slot fails
with `InvalidArrayElement(None)` (never treated as null) in both ownership
modes; and `next_key` on an object entry that is a shorthand (or other
non-key-value) property fails with `UnexpectedProp`, and on a spread entry
fails with `UnexpectedSpread`, in both ownership modes. -/
theorem c9_hole_and_bad_entry_errors :
    (∀ (m : Mode) (rest : List (Option ExprOrSpread)),
        (Seq.new m (none :: rest)).next_element = .error (.invalidArrayElement none))
    ∧ (∀ (m : Mode) (rest : List PropOrSpread) (s : String),
        (Map.new m (.prop (.shorthand s) :: rest)).next_key =
          .error (.unexpectedProp (.shorthand s)))
    ∧ (∀ (m : Mode) (rest : List PropOrSpread),
        (Map.new m (.prop .other :: rest)).next_key = .error (.unexpectedProp .other))
    ∧ (∀ (m : Mode) (rest : List PropOrSpread) (e : Expr),
        (Map.new m (.spread e :: rest)).next_key = .error (.unexpectedSpread e)) := by
  refine ⟨?_, ?_, ?_, ?_⟩ <;> intro m rest <;> cases m <;>
    simp [Seq.new, Seq.next_element, Map.new, Map.next_key, popBack_concat]

/-! ## C10 — next_key with a pending value -/

/-- C10: calling `next_key` while a value from the previous entry is still
pending never fails because of the pending value: whenever `next_key`
would yield a key from the no-pending state, it yields exactly the same
key and the same successor state with any pending value present — the
pending value is silently overwritten by the new entry's value expression
(which is what the following `next_value` returns), and the overwritten
expression is gone from the accessor state, so it can never be retrieved
afterwards. -/
theorem c10_pending_value_replaced :
    ∀ (m : Mode) (fs : List PropOrSpread) (pv : Expr) (s : String) (st : Map),
      (Map.mk m fs none).next_key = .ok (some (s, st)) →
      (Map.mk m fs (some pv)).next_key = .ok (some (s, st))
      ∧ ∃ vnew : Expr, st.value = some vnew
          ∧ st.next_value = .ok (vnew, { st with value := none }) := by
  intro m fs pv s st h
  constructor
  · exact h
  · cases m with
    | borrowed =>
      cases fs with
      | nil => simp [Map.next_key] at h
      | cons x rest =>
        match x with
        | .prop (.keyValue k v) =>
          cases hk : prop_name_to_str k with
          | none => simp [Map.next_key, hk] at h
          | some s' =>
            simp [Map.next_key, hk] at h
            obtain ⟨hs, hst⟩ := h
            subst hst
            exact ⟨v, rfl, rfl⟩
        | .prop (.shorthand s2) => simp [Map.next_key] at h
        | .prop .other => simp [Map.next_key] at h
        | .spread e => simp [Map.next_key] at h
    | owned =>
      rcases hpb : popBack fs with _ | ⟨x, rest⟩
      · simp [Map.next_key, hpb] at h
      · match x with
        | .prop (.keyValue k v) =>
          cases hk : prop_name_to_str k with
          | none => simp [Map.next_key, hpb, hk] at h
          | some s' =>
            simp [Map.next_key, hpb, hk] at h
            obtain ⟨hs, hst⟩ := h
            subst hst
            exact ⟨v, rfl, rfl⟩
        | .prop (.shorthand s2) => simp [Map.next_key, hpb] at h
        | .prop .other => simp [Map.next_key, hpb] at h
        | .spread e => simp [Map.next_key, hpb] at h

/-- C10 witness: the theorem applied with a pending value `true` against a
map whose next entry is `a: null`. -/
theorem c10_witness :
    (Map.mk .borrowed [.prop (.keyValue (.ident "a") (.lit .null))]
        (some (.lit (.bool true)))).next_key =
      .ok (some ("a", ⟨.borrowed, [], some (.lit .null)⟩))
    ∧ ∃ vnew : Expr,
        (Map.mk .borrowed [] (some (.lit .null)) : Map).value = some vnew
        ∧ (Map.mk .borrowed [] (some (.lit .null)) : Map).next_value =
            .ok (vnew, { (Map.mk .borrowed [] (some (.lit .null)) : Map) with value := none }) :=
  c10_pending_value_replaced .borrowed [.prop (.keyValue (.ident "a") (.lit .null))]
    (.lit (.bool true)) "a" ⟨.borrowed, [], some (.lit .null)⟩ rfl

/-! ## C1 — ownership-mode equivalence -/

theorem errAdjust_unexpected_lit (l : Lit) (s : String) :
    errAdjust (Error.unexpected_lit l s) = Error.unexpected_lit l s := by
  cases l with
  | num nn =>
    simp only [Error.unexpected_lit]
    cases number.number_to_unexpected nn <;> rfl
  | bool b => rfl
  | str s2 => rfl
  | null => rfl
  | bigInt s2 => rfl
  | regex s2 => rfl
  | jsxText s2 => rfl

theorem elems_mode_of (n : Nat)
    (ih : ∀ e : Expr, sizeOf e ≤ n →
      deserialize_value .owned e = (deserialize_value .borrowed e).mapError errAdjust) :
    ∀ l : List (Option ExprOrSpread), sizeOf l ≤ n →
      elems_owned l = (elems_borrowed l).mapError errAdjust := by
  intro l
  induction l with
  | nil => intro _; simp [elems_owned, elems_borrowed, Except.mapError]
  | cons x rest ihl =>
    intro h
    match x with
    | none => simp [elems_owned, elems_borrowed, Except.mapError, errAdjust]
    | some (.mk sp ex) =>
      have hex : sizeOf ex ≤ n := by simp at h; omega
      have hrest : sizeOf rest ≤ n := by simp at h; omega
      simp only [elems_owned, elems_borrowed]
      rw [ih ex hex]
      cases hb : deserialize_value .borrowed ex with
      | error er => simp [Except.mapError]
      | ok v =>
        simp only [Except.mapError]
        rw [ihl hrest]
        cases hr : elems_borrowed rest <;> simp [Except.mapError]

theorem fields_mode_of (n : Nat)
    (ih : ∀ e : Expr, sizeOf e ≤ n →
      deserialize_value .owned e = (deserialize_value .borrowed e).mapError errAdjust) :
    ∀ l : List PropOrSpread, sizeOf l ≤ n →
      fields_owned l = (fields_borrowed l).mapError errAdjust := by
  intro l
  induction l with
  | nil => intro _; simp [fields_owned, fields_borrowed, Except.mapError]
  | cons x rest ihl =>
    intro h
    match x with
    | .prop (.keyValue k v) =>
      have hv : sizeOf v ≤ n := by simp at h; omega
      have hrest : sizeOf rest ≤ n := by simp at h; omega
      simp only [fields_owned, fields_borrowed]
      cases hk : prop_name_to_str k with
      | none => simp [Except.mapError, errAdjust]
      | some s =>
        rw [ih v hv]
        cases hb : deserialize_value .borrowed v with
        | error er => simp [Except.mapError]
        | ok jv =>
          simp only [Except.mapError]
          rw [ihl hrest]
          cases hr : fields_borrowed rest <;> simp [Except.mapError]
    | .prop (.shorthand s) => simp [fields_owned, fields_borrowed, Except.mapError, errAdjust]
    | .prop .other => simp [fields_owned, fields_borrowed, Except.mapError, errAdjust]
    | .spread e => simp [fields_owned, fields_borrowed, Except.mapError, errAdjust]

theorem mode_aux : ∀ (n : Nat) (e : Expr), sizeOf e ≤ n →
    deserialize_value .owned e = (deserialize_value .borrowed e).mapError errAdjust := by
  intro n
  induction n with
  | zero =>
    intro e h
    exfalso
    cases e <;> simp at h
  | succ n ih =>
    intro e h
    cases e with
    | array es =>
      have hes : sizeOf es ≤ n := by simp at h; omega
      simp only [deserialize_value, List.reverse_reverse]
      rw [elems_mode_of n ih es hes]
      cases hb : elems_borrowed es <;> simp [Except.mapError]
    | object ps =>
      have hps : sizeOf ps ≤ n := by simp at h; omega
      simp only [deserialize_value, List.reverse_reverse]
      rw [fields_mode_of n ih ps hps]
      cases hb : fields_borrowed ps <;> simp [Except.mapError]
    | lit l =>
      cases l with
      | num nn =>
        simp only [deserialize_value]
        by_cases hi : number.is_integer nn
        · simp only [hi, if_true]
          cases hn : number.number_to_i64 nn <;>
            simp [Except.mapError, errAdjust_unexpected_lit]
        · simp [hi, Except.mapError]
      | bool b => simp [deserialize_value, Except.mapError]
      | str s => simp [deserialize_value, Except.mapError]
      | null => simp [deserialize_value, Except.mapError]
      | bigInt s => simp [deserialize_value, Except.mapError, errAdjust]
      | regex s => simp [deserialize_value, Except.mapError, errAdjust]
      | jsxText s => simp [deserialize_value, Except.mapError, errAdjust]
    | ident s => simp [deserialize_value, Except.mapError]
    | unsupported => simp [deserialize_value, Except.mapError, errAdjust]

/-- C1 (amended): for every expression tree, owned-mode deserialization at
the generic any-value target equals borrowed-mode deserialization up to one
error renaming (`errAdjust`: a plain key-value property with a
non-identifier, non-string key is `UnexpectedProp` when borrowed and
`InvalidObjectKey` when owned).  In particular every successful outcome,
and every failure other than that one error kind, is identical in the two
ownership modes — ownership is observable only in that failure payload. -/
theorem c1_owned_matches_borrowed :
    ∀ e : Expr, from_expr_owned e = (from_expr e).mapError errAdjust :=
  fun e => mode_aux (sizeOf e) e (Nat.le_refl _)

/-- C1 counterexample: deserializing the object literal with the single
numeric-key property `1: null` as a map fails with `UnexpectedProp` when
borrowed and with `InvalidObjectKey` when owned — the two ownership modes
do NOT produce equal results. -/
theorem c1_counterexample :
    from_expr (.object [.prop (.keyValue (.num ⟨1, some "1"⟩) (.lit .null))]) ≠
      from_expr_owned (.object [.prop (.keyValue (.num ⟨1, some "1"⟩) (.lit .null))]) := by
  have hb : from_expr (.object [.prop (.keyValue (.num ⟨1, some "1"⟩) (.lit .null))]) =
      .error (.unexpectedProp (.keyValue (.num ⟨1, some "1"⟩) (.lit .null))) := by
    simp [from_expr, deserialize_value, fields_borrowed, prop_name_to_str]
  have ho : from_expr_owned (.object [.prop (.keyValue (.num ⟨1, some "1"⟩) (.lit .null))]) =
      .error (.invalidObjectKey (.num ⟨1, some "1"⟩)) := by
    simp [from_expr_owned, deserialize_value, fields_owned, prop_name_to_str]
  rw [hb, ho]
  simp

/-- Supporting: the sequence accessor yields the same outcome in the two
ownership modes — exhaustion, the hole error, and each yielded expression
agree step by step, with the successor states again `Seq.new` of the same
remaining slots (front-reading a borrowed slice and back-popping the
reversed owned vector walk the slots in the same order). -/
theorem seq_next_element_mode_agree :
    (∀ m : Mode, (Seq.new m ([] : List (Option ExprOrSpread))).next_element = .ok none)
    ∧ (∀ (m : Mode) (rest : List (Option ExprOrSpread)),
        (Seq.new m (none :: rest)).next_element = .error (.invalidArrayElement none))
    ∧ (∀ (m : Mode) (sp : Bool) (ex : Expr) (rest : List (Option ExprOrSpread)),
        (Seq.new m (some (.mk sp ex) :: rest)).next_element =
          .ok (some (ex, Seq.new m rest))) := by
  refine ⟨?_, ?_, ?_⟩
  · intro m; cases m <;> simp [Seq.new, Seq.next_element, popBack]
  · intro m rest; cases m <;> simp [Seq.new, Seq.next_element, popBack_concat]
  · intro m sp ex rest; cases m <;> simp [Seq.new, Seq.next_element, popBack_concat]

/-! ## C5 — dispatch at the "any" shape -/

/-- C5 (amended): at the "any" shape, an array dispatches as a sequence
(every success is a sequence value), an object dispatches as a map (every
success is a map value), boolean/string/null literals yield their natural
kinds, an identifier yields its text as a string; a numeric literal that is
textually classified as an integer is dispatched at the 64-bit signed
integer shape — yielding an integer exactly when `number_to_i64` accepts
it, and failing with the i64 diagnostic otherwise — while a numeric
literal not classified as an integer yields its value as a float; and
every other node kind (big-integer, regex, JSX text, unsupported
expression forms) is a hard failure. -/
theorem c5_any_shape_dispatch :
    (∀ (m : Mode) (es : List (Option ExprOrSpread)) (r : JsValue),
        deserialize_value m (.array es) = .ok r → ∃ vs, r = .arr vs)
    ∧ (∀ (m : Mode) (ps : List PropOrSpread) (r : JsValue),
        deserialize_value m (.object ps) = .ok r → ∃ kvs, r = .obj kvs)
    ∧ (∀ (m : Mode) (b : Bool), deserialize_value m (.lit (.bool b)) = .ok (.bool b))
    ∧ (∀ (m : Mode) (s : String), deserialize_value m (.lit (.str s)) = .ok (.str s))
    ∧ (∀ m : Mode, deserialize_value m (.lit .null) = .ok .null)
    ∧ (∀ (m : Mode) (s : String), deserialize_value m (.ident s) = .ok (.str s))
    ∧ (∀ (m : Mode) (nn : Number) (i : Int), number.number_to_i64 nn = some i →
        deserialize_value m (.lit (.num nn)) = .ok (.int i))
    ∧ (∀ (m : Mode) (nn : Number),
        number.is_integer nn = true → number.number_to_i64 nn = none →
        deserialize_value m (.lit (.num nn)) =
          .error (Error.unexpected_lit (.num nn) "i64"))
    ∧ (∀ (m : Mode) (nn : Number), number.is_integer nn = false →
        deserialize_value m (.lit (.num nn)) = .ok (.float nn.value))
    ∧ (∀ (m : Mode) (s : String),
        deserialize_value m (.lit (.bigInt s)) = .error (.unexpectedExpr (.lit (.bigInt s)))
        ∧ deserialize_value m (.lit (.regex s)) = .error (.unexpectedExpr (.lit (.regex s)))
        ∧ deserialize_value m (.lit (.jsxText s)) =
            .error (.unexpectedExpr (.lit (.jsxText s))))
    ∧ (∀ m : Mode, deserialize_value m .unsupported = .error (.unexpectedExpr .unsupported)) := by
  refine ⟨?_, ?_, ?_, ?_, ?_, ?_, ?_, ?_, ?_, ?_, ?_⟩
  · intro m es r h
    cases m <;> simp only [deserialize_value, List.reverse_reverse] at h <;> split at h <;>
      simp only [Except.error.injEq, Except.ok.injEq, reduceCtorEq] at h <;>
      exact ⟨_, h.symm⟩
  · intro m ps r h
    cases m <;> simp only [deserialize_value, List.reverse_reverse] at h <;> split at h <;>
      simp only [Except.error.injEq, Except.ok.injEq, reduceCtorEq] at h <;>
      exact ⟨_, h.symm⟩
  · intro m b; simp [deserialize_value]
  · intro m s; simp [deserialize_value]
  · intro m; simp [deserialize_value]
  · intro m s; simp [deserialize_value]
  · intro m nn i hsome
    have hi : number.is_integer nn = true := by
      cases hi : number.is_integer nn
      · rw [number.number_to_i64, hi] at hsome; simp at hsome
      · rfl
    simp [deserialize_value, hi, hsome]
  · intro m nn hi hnone
    simp [deserialize_value, hi, hnone]
  · intro m nn hi
    simp [deserialize_value, hi]
  · intro m s
    refine ⟨?_, ?_, ?_⟩ <;> simp [deserialize_value]
  · intro m; simp [deserialize_value]

/-- C5 witness: the dispatch theorem applied at the integer-classified
literal `5`, which the 64-bit coercion accepts. -/
theorem c5_witness :
    number.number_to_i64 ⟨5, some "5"⟩ = some 5
    ∧ deserialize_value .borrowed (.lit (.num ⟨5, some "5"⟩)) = .ok (.int 5) :=
  ⟨by decide,
   c5_any_shape_dispatch.2.2.2.2.2.2.1 .borrowed ⟨5, some "5"⟩ 5 (by decide)⟩

/-- C5 counterexample: the literal `10^22` (source text without a decimal
point, e.g. `10000000000000000000000`) IS textually classified as an
integer, yet at the "any" shape it does not yield an integer — it is a
hard failure (`InvalidNumber`), because the value exceeds the i64 range
the "any" dispatch routes integers through. -/
theorem c5_counterexample :
    number.is_integer ⟨10000000000000000000000, some "10000000000000000000000"⟩ = true
    ∧ deserialize_value .borrowed
        (.lit (.num ⟨10000000000000000000000, some "10000000000000000000000"⟩)) =
      .error (.invalidNumber ⟨10000000000000000000000, some "10000000000000000000000"⟩) := by
  constructor
  · decide
  · have h1 : number.is_integer ⟨10000000000000000000000, some "10000000000000000000000"⟩ =
        true := by decide
    have h2 : number.number_to_i64 ⟨10000000000000000000000, some "10000000000000000000000"⟩ =
        none := by decide
    have h3 : number.number_to_unexpected
        ⟨10000000000000000000000, some "10000000000000000000000"⟩ = none := by decide
    simp [deserialize_value, h1, h2, Error.unexpected_lit, h3]

end Ecmade
